import Mathlib

/-!
Verification of the circadian browser extension's coordination core
(time/period engine, background temperature resolver, overlay controller,
popup preview protocol, storage layer).

JavaScript strings are embedded as `List Char`; machine numbers carrying
epoch-milliseconds are `Nat` (`Date.now()` is non-negative), temperatures
are `Int`.  Local wall-clock extraction (`Date#getHours`/`getMinutes`) is
abstracted by passing the minutes-since-local-midnight value alongside the
raw timestamp.
-/

namespace Circadian

/-- Numeric value of a decimal digit character (JS `parseInt` on a digit). -/
def digitVal (c : Char) : Nat := c.toNat - 48

/-- JS `String#trim` (ASCII whitespace; the Unicode extras of JS never
occur in the strings this program produces). -/
def trimChars (l : List Char) : List Char :=
  ((l.dropWhile Char.isWhitespace).reverse.dropWhile Char.isWhitespace).reverse

/-- The `(AM|PM)$` part of the time regex, case-insensitive.
`some false` = AM, `some true` = PM. -/
def matchMeridiem : List Char → Option Bool
  | [a, m] =>
    if (a = 'A' ∨ a = 'a') ∧ (m = 'M' ∨ m = 'm') then some false
    else if (a = 'P' ∨ a = 'p') ∧ (m = 'M' ∨ m = 'm') then some true
    else none
  | _ => none

/-- After the colon: `(\d{2})\s*(AM|PM)$`. -/
def matchAfterColon (h : Nat) : List Char → Option (Nat × Nat × Bool)
  | m1 :: m2 :: rest =>
    if m1.isDigit && m2.isDigit then
      match matchMeridiem (rest.dropWhile Char.isWhitespace) with
      | some pm => some (h, 10 * digitVal m1 + digitVal m2, pm)
      | none => none
    else none
  | _ => none

/-- The regex `^(\d{1,2}):(\d{2})\s*(AM|PM)$/i` from `src/utils/time.ts`,
applied to an (already trimmed) character list.  Returns the raw hour
field, the minute field and the meridiem. -/
def matchTime : List Char → Option (Nat × Nat × Bool)
  | h1 :: ':' :: rest =>
    if h1.isDigit then matchAfterColon (digitVal h1) rest else none
  | h1 :: h2 :: ':' :: rest =>
    if h1.isDigit && h2.isDigit then
      matchAfterColon (10 * digitVal h1 + digitVal h2) rest
    else none
  | _ => none

/-- `parseTimeToComponents` from `src/utils/time.ts`: match the regex on the
trimmed input, then validate hours 1–12 and minutes 0–59. -/
def parseTimeToComponents (s : List Char) : Option (Nat × Nat × Bool) :=
  match matchTime (trimChars s) with
  | none => none
  | some (h, m, pm) =>
    if 1 ≤ h && h ≤ 12 && m ≤ 59 then some (h, m, pm) else none

/-- The 12-hour → 24-hour hour conversion shared by `parseTimeString` and
`convertTo24Hour`: AM 12 → 0, PM non-12 → +12. -/
def to24Hour (h : Nat) (pm : Bool) : Nat :=
  if pm then (if h ≠ 12 then h + 12 else h) else (if h = 12 then 0 else h)

/-- `parseTimeString` from `src/utils/time.ts`: minutes since midnight, or
`none` when the regex or the range validation fails. -/
def parseTimeString (s : List Char) : Option Nat :=
  match matchTime (trimChars s) with
  | none => none
  | some (h, m, pm) =>
    if 1 ≤ h && h ≤ 12 && m ≤ 59 then some (to24Hour h pm * 60 + m) else none

/-- Decimal digit character for `d ≤ 9` (JS number-to-string digits). -/
def decDigit (d : Nat) : Char := Nat.digitChar d

/-- JS `Number#toString` for a non-negative integer, with structural fuel
so that the kernel can evaluate it. -/
def natDigitsAux : Nat → Nat → List Char
  | 0, _ => []
  | fuel + 1, n =>
    if n < 10 then [decDigit n]
    else natDigitsAux fuel (n / 10) ++ [decDigit (n % 10)]

/-- JS `n.toString()` for a non-negative integer `n`. -/
def natDigits (n : Nat) : List Char := natDigitsAux (n + 1) n

/-- JS `n.toString().padStart(2, "0")`. -/
def padTwo (n : Nat) : List Char :=
  let s := natDigits n
  if s.length < 2 then '0' :: s else s

/-- The output format of `convertTo24Hour`: `HH:MM` (both fields padded). -/
def render24 (h m : Nat) : List Char :=
  padTwo h ++ ':' :: padTwo m

/-- The output format of `convertFrom24Hour`: `H:MM AM` / `H:MM PM`
(hour unpadded, minutes padded, single space, uppercase meridiem). -/
def render12 (h m : Nat) (pm : Bool) : List Char :=
  natDigits h ++ ':' :: (padTwo m ++ ' ' :: (if pm then ['P', 'M'] else ['A', 'M']))

/-- `convertTo24Hour` from `src/utils/time.ts`. -/
def convertTo24Hour (s : List Char) : Option (List Char) :=
  match parseTimeToComponents s with
  | none => none
  | some (h, m, pm) =>
    let h24 := if pm && h ≠ 12 then h + 12 else if !pm && h = 12 then 0 else h
    some (render24 h24 m)

/-- The regex `^(\d{1,2}):(\d{2})$/i` of `convertFrom24Hour` (no trim in the
source). -/
def match24 : List Char → Option (Nat × Nat)
  | [h1, ':', m1, m2] =>
    if h1.isDigit && m1.isDigit && m2.isDigit then
      some (digitVal h1, 10 * digitVal m1 + digitVal m2)
    else none
  | [h1, h2, ':', m1, m2] =>
    if h1.isDigit && h2.isDigit && m1.isDigit && m2.isDigit then
      some (10 * digitVal h1 + digitVal h2, 10 * digitVal m1 + digitVal m2)
    else none
  | _ => none

/-- `convertFrom24Hour` from `src/utils/time.ts`. -/
def convertFrom24Hour (s : List Char) : Option (List Char) :=
  match match24 s with
  | none => none
  | some (h24, m) =>
    if h24 ≤ 23 && m ≤ 59 then
      let pm : Bool := decide (12 ≤ h24)
      let h12 := if h24 = 0 then 12 else if h24 > 12 then h24 - 12 else h24
      some (render12 h12 m pm)
    else none

/-- The three schedule periods. -/
inductive Period
  | Daytime
  | Sunset
  | Bedtime
deriving DecidableEq

/-- The branch structure of `getCurrentPeriod` (`src/utils/time.ts`, lines
172–191) on minutes-since-midnight values. -/
def getCurrentPeriodMinutes (currentTime daytimeTime sunsetTime bedtimeTime : Nat) :
    Period :=
  if bedtimeTime < daytimeTime then
    if currentTime ≥ bedtimeTime ∨ currentTime < daytimeTime then .Bedtime
    else if currentTime ≥ daytimeTime ∧ currentTime < sunsetTime then .Daytime
    else .Sunset
  else
    if currentTime ≥ daytimeTime ∧ currentTime < sunsetTime then .Daytime
    else if currentTime ≥ sunsetTime ∧ currentTime < bedtimeTime then .Sunset
    else .Bedtime

/-- `getCurrentPeriod` from `src/utils/time.ts`; `currentTime` is the
minutes-since-local-midnight of the timestamp argument (the
`getHours`/`getMinutes` extraction abstracted away). -/
def getCurrentPeriod (currentTime : Nat)
    (daytimeStart sunsetStart bedtimeStart : List Char) : Period :=
  getCurrentPeriodMinutes currentTime
    ((parseTimeString daytimeStart).getD (6 * 60))
    ((parseTimeString sunsetStart).getD (18 * 60))
    ((parseTimeString bedtimeStart).getD (22 * 60))

/-- The classification rule exactly as the specification states it
(spec-side definition, for comparison against `getCurrentPeriodMinutes`). -/
def classifyPeriodSpec (m d s b : Nat) : Period :=
  if b < d then
    if m ≥ b ∨ m < d then .Bedtime
    else if m < s then .Daytime
    else .Sunset
  else
    if d ≤ m ∧ m < s then .Daytime
    else if s ≤ m ∧ m < b then .Sunset
    else .Bedtime

/-- The settings record (`src/utils/storage.ts`).  `loadSettings` fills
every field with a default, so the record is total. -/
structure CircadianSettings where
  enabled : Bool
  daytimeStart : List Char
  sunsetStart : List Char
  bedtimeStart : List Char
  daytimeTemp : Int
  sunsetTemp : Int
  bedtimeTemp : Int
deriving DecidableEq

/-- `getDefaultSettings` from `src/utils/storage.ts`. -/
def getDefaultSettings : CircadianSettings where
  enabled := true
  daytimeStart := "6:00 AM".toList
  sunsetStart := "6:00 PM".toList
  bedtimeStart := "10:00 PM".toList
  daytimeTemp := 6000
  sunsetTemp := 4500
  bedtimeTemp := 2600

/-- The forced (preview) override record returned by
`loadForcedTemperature`. -/
structure ForcedRecord where
  temperature : Option Int
  expiresAt : Option Nat
deriving DecidableEq

/-- JS truthiness of a nullable epoch-milliseconds number
(`forced.expiresAt && ...`): `null` and `0` are falsy. -/
def jsTruthyNat : Option Nat → Bool
  | none => false
  | some e => decide (e ≠ 0)

/-- The guard `forced.temperature != null && forced.expiresAt &&
forced.expiresAt > now` shared by `background.ts` and
`circadian-filter.ts`. -/
def forcedActive (f : ForcedRecord) (now : Nat) : Bool :=
  f.temperature.isSome && jsTruthyNat f.expiresAt && decide (f.expiresAt.getD 0 > now)

/-- JS `s || dflt` on strings: the empty string is falsy. -/
def jsOrStr (s dflt : List Char) : List Char :=
  if s = [] then dflt else s

/-- `getTemperatureForPeriod` from `src/background.ts`. -/
def getTemperatureForPeriod (period : Period) (daytimeTemp sunsetTemp bedtimeTemp : Int) :
    Int :=
  match period with
  | .Daytime => daytimeTemp
  | .Sunset => sunsetTemp
  | .Bedtime => bedtimeTemp

/-- The storage and timer state visible to the background resolver. -/
structure BackgroundState where
  forced : ForcedRecord
  settings : CircadianSettings
  currentTemp : Option Int
  /-- pending `forcedExpiryTimer` delay in ms, `none` when no timer. -/
  expiryTimerDelay : Option Nat
deriving DecidableEq

/-- The schedule-derived temperature of step 4 of the resolver:
classify the current period against the (possibly empty, hence defaulted)
boundary strings and select that period's configured temperature. -/
def scheduleTemp (s : CircadianSettings) (minutesOfDay : Nat) : Int :=
  getTemperatureForPeriod
    (getCurrentPeriod minutesOfDay
      (jsOrStr s.daytimeStart ("6:00 AM".toList))
      (jsOrStr s.sunsetStart ("6:00 PM".toList))
      (jsOrStr s.bedtimeStart ("10:00 PM".toList)))
    s.daytimeTemp s.sunsetTemp s.bedtimeTemp

/-- `updateTemperature` from `src/background.ts` (lines 36–98), as a pure
transition on the storage/timer state.  `now` is `Date.now()` and
`minutesOfDay` the local minutes-since-midnight that
`getCurrentPeriod` extracts from it. -/
def updateTemperature (st : BackgroundState) (now minutesOfDay : Nat) :
    BackgroundState :=
  if forcedActive st.forced now then
    { st with
        currentTemp := st.forced.temperature
        expiryTimerDelay := some (st.forced.expiresAt.getD 0 - now + 20) }
  else
    let st1 :=
      if jsTruthyNat st.forced.expiresAt && decide (st.forced.expiresAt.getD 0 ≤ now) then
        { st with expiryTimerDelay := none, forced := ⟨none, none⟩ }
      else st
    if st1.settings.enabled = false then st1
    else { st1 with currentTemp := some (scheduleTemp st1.settings minutesOfDay) }

/-- Trigger modes of the content-script overlay controller. -/
inductive Mode
  | auto
  | preview
  | instant
deriving DecidableEq

/-- CSS transition values set by `applyTemperature`
(`circadian-filter.ts`): `none`, `background-color 30s ease-in-out`,
`background-color 0.2s ease`. -/
inductive Transition
  | noTransition
  | auto30s
  | preview02s
deriving DecidableEq

/-- The overlay `div`: its `transition` style and its `backgroundColor`
(recorded as the Kelvin value passed to the excluded-as-external
`kelvinToOverlayColor`; `none` = not yet set). -/
structure OverlayEl where
  transition : Transition
  color : Option Int
deriving DecidableEq

/-- Page-context state of the overlay controller: the page hostname, the
relevant stored values, and the module-level locals of
`circadian-filter.ts`. -/
structure FilterState where
  runtimeAvailable : Bool
  hostname : List Char
  excludedHostnames : List (List Char)
  forced : ForcedRecord
  currentTemp : Option Int
  /-- stored `circadian_instant_apply_once` flag (read and cleared by
  `consumeInstantApplyOnce`). -/
  instantApplyOnce : Bool
  lastTemperature : Option Int
  overlay : Option OverlayEl
  lastAutoAppliedAt : Nat
deriving DecidableEq

/-- Modelled from the spec: `isHostnameExcluded` (imported by
`circadian-filter.ts` from `~/utils/storage` but absent from the sources)
— "set of hostnames for which the overlay must never render …
consulted by every Overlay Controller on every recomputation, keyed by
the page's own hostname": membership of the page hostname in the stored
excluded-hostname set. -/
def isHostnameExcluded (hostname : List Char) (excluded : List (List Char)) : Bool :=
  excluded.contains hostname

/-- `ensureOverlay`: reuse the attached element, else create one whose
`cssText` sets `transition: none` and no background color yet. -/
def ensureOverlay (o : Option OverlayEl) : OverlayEl :=
  o.getD ⟨.noTransition, none⟩

/-- `applyTemperature` from `circadian-filter.ts` (lines 59–76). -/
def applyTemperature (st : FilterState) (temperature : Int) (mode : Mode) (now : Nat) :
    FilterState :=
  let el := ensureOverlay st.overlay
  let el :=
    match mode with
    | .auto => { el with transition := .auto30s }
    | .preview => { el with transition := .preview02s }
    | .instant => { el with transition := .noTransition }
  { st with
      overlay := some { el with color := some temperature }
      lastTemperature := some temperature
      lastAutoAppliedAt := if mode = .auto then now else st.lastAutoAppliedAt }

/-- `updateFilter` from `circadian-filter.ts` (lines 81–139), as a pure
transition.  The `consumeInstantApplyOnce` call is inlined: it reads the
flag and clears it when set. -/
def updateFilter (st : FilterState) (mode : Mode) (now : Nat) : FilterState :=
  if st.runtimeAvailable = false then st
  else if isHostnameExcluded st.hostname st.excludedHostnames then
    { st with lastTemperature := none, overlay := none }
  else if forcedActive st.forced now then
    applyTemperature st (st.forced.temperature.getD 0) .preview now
  else
    match st.currentTemp with
    | none => st
    | some temperature =>
      let instant := st.instantApplyOnce
      let st1 := { st with instantApplyOnce := false }
      if instant then applyTemperature st1 temperature .instant now
      else if mode ≠ .auto then applyTemperature st1 temperature mode now
      else
        let timeSince : Int := (now : Int) - (st1.lastAutoAppliedAt : Int)
        let deltaGe25 : Bool :=
          match st1.lastTemperature with
          | none => true
          | some lt => decide (25 ≤ (temperature - lt).natAbs)
        if timeSince > 3000 || deltaGe25 then
          applyTemperature st1 temperature .auto now
        else if st1.lastTemperature.isNone then
          applyTemperature st1 temperature .instant now
        else st1

/-- C10: for every input string, `parseTimeString` returns either `none` or
an integer in `[0, 1439]`: the hour field is validated to 1–12 and the
minute field to 0–59 before the 24-hour conversion, so the result is a
valid minutes-since-midnight value. -/
theorem parseTimeString_range (s : List Char) :
    parseTimeString s = none ∨
    ∃ v, parseTimeString s = some v ∧ v ≤ 1439 := by
  unfold parseTimeString
  cases hmt : matchTime (trimChars s) with
  | none => exact Or.inl rfl
  | some t =>
    obtain ⟨h, m, pm⟩ := t
    by_cases hg : (1 ≤ h && h ≤ 12 && m ≤ 59) = true
    · refine Or.inr ⟨to24Hour h pm * 60 + m, by simp [hg], ?_⟩
      simp only [Bool.and_eq_true, decide_eq_true_eq] at hg
      have h24 : to24Hour h pm ≤ 23 := by
        unfold to24Hour
        split_ifs <;> omega
      omega
    · exact Or.inl (by simp [hg])

/-- C1: for every minutes-of-day value and every triple of boundary strings
with parsed minute values, `getCurrentPeriod` computes exactly the stated
minutes-since-midnight rule (`classifyPeriodSpec`), returns exactly one of
the three periods, and — for a non-degenerate ordering
`daytime ≤ sunset ≤ bedtime` — the three periods' half-open,
start-inclusive arcs `[d, s)`, `[s, b)` and the wrap-around remainder are
exactly the classification fibers, so they partition the full 1440 minutes
of the day with no gaps or overlaps. -/
theorem getCurrentPeriod_rule_and_partition
    (m d s b : Nat) (_hm : m < 1440) (ds ss bs : List Char)
    (hd : parseTimeString ds = some d)
    (hs : parseTimeString ss = some s)
    (hb : parseTimeString bs = some b) :
    getCurrentPeriod m ds ss bs = classifyPeriodSpec m d s b ∧
    (getCurrentPeriod m ds ss bs = Period.Daytime ∨
     getCurrentPeriod m ds ss bs = Period.Sunset ∨
     getCurrentPeriod m ds ss bs = Period.Bedtime) ∧
    (d ≤ s → s ≤ b →
      ((getCurrentPeriod m ds ss bs = Period.Daytime ↔ d ≤ m ∧ m < s) ∧
       (getCurrentPeriod m ds ss bs = Period.Sunset ↔ s ≤ m ∧ m < b) ∧
       (getCurrentPeriod m ds ss bs = Period.Bedtime ↔ b ≤ m ∨ m < d))) := by
  have hg : getCurrentPeriod m ds ss bs = getCurrentPeriodMinutes m d s b := by
    rw [getCurrentPeriod, hd, hs, hb]
    rfl
  rw [hg]
  unfold getCurrentPeriodMinutes classifyPeriodSpec
  refine ⟨?_, ?_, ?_⟩
  · split_ifs <;> simp_all
  · split_ifs <;> simp
  · intro hds hsb
    refine ⟨?_, ?_, ?_⟩ <;> split_ifs <;> simp_all <;> omega

/-- C1 witness: boundaries 6:00 AM / 6:00 PM / 10:00 PM at 7:00 AM
(minute 420). -/
theorem getCurrentPeriod_rule_and_partition_witness :
    getCurrentPeriod 420 ("6:00 AM".toList) ("6:00 PM".toList) ("10:00 PM".toList) =
      classifyPeriodSpec 420 360 1080 1320 ∧
    (getCurrentPeriod 420 ("6:00 AM".toList) ("6:00 PM".toList) ("10:00 PM".toList) =
        Period.Daytime ↔ 360 ≤ 420 ∧ 420 < 1080) :=
  ⟨(getCurrentPeriod_rule_and_partition 420 360 1080 1320 (by decide)
      ("6:00 AM".toList) ("6:00 PM".toList) ("10:00 PM".toList)
      (by decide) (by decide) (by decide)).1,
   ((getCurrentPeriod_rule_and_partition 420 360 1080 1320 (by decide)
      ("6:00 AM".toList) ("6:00 PM".toList) ("10:00 PM".toList)
      (by decide) (by decide) (by decide)).2.2 (by decide) (by decide)).1⟩

/-- C5 counterexample: `"6:30"` is accepted by `convertFrom24Hour`
(producing `"6:30 AM"`), but converting back yields the padded `"06:30"`,
not the original string — so round-tripping is not exact for all inputs
accepted by `convertFrom24Hour`. -/
theorem convert_roundtrip_counterexample :
    convertFrom24Hour ("6:30".toList) = some ("6:30 AM".toList) ∧
    convertTo24Hour ("6:30 AM".toList) = some ("06:30".toList) ∧
    ("06:30".toList) ≠ ("6:30".toList) := by decide

/-- C5 (amended): round-tripping is exact for all canonical inputs: 24-hour
strings `HH:MM` with two-digit zero-padded fields (`render24`), and
12-hour strings `H:MM AM`/`H:MM PM` with unpadded hour 1–12, two-digit
minutes, a single space and uppercase meridiem (`render12`) — exactly the
forms the two conversions themselves produce.  The boundary cases
00:00 ↔ 12:00 AM and 12:00 ↔ 12:00 PM are instances. -/
theorem convert_roundtrip_canonical :
    (∀ h < 24, ∀ m < 60,
      (convertFrom24Hour (render24 h m)).isSome = true ∧
      convertTo24Hour ((convertFrom24Hour (render24 h m)).getD []) =
        some (render24 h m)) ∧
    (∀ h < 13, 1 ≤ h → ∀ m < 60, ∀ pm : Bool,
      (convertTo24Hour (render12 h m pm)).isSome = true ∧
      convertFrom24Hour ((convertTo24Hour (render12 h m pm)).getD []) =
        some (render12 h m pm)) := by
  constructor
  · decide
  · decide

/-- C5 witness: the boundary cases 00:00 ↔ 12:00 AM and 12:00 ↔ 12:00 PM
round-trip exactly. -/
theorem convert_roundtrip_canonical_witness :
    convertTo24Hour ((convertFrom24Hour (render24 0 0)).getD []) =
      some (render24 0 0) ∧
    convertFrom24Hour ((convertTo24Hour (render12 12 0 false)).getD []) =
      some (render12 12 0 false) ∧
    convertFrom24Hour ((convertTo24Hour (render12 12 0 true)).getD []) =
      some (render12 12 0 true) :=
  ⟨(convert_roundtrip_canonical.1 0 (by decide) 0 (by decide)).2,
   (convert_roundtrip_canonical.2 12 (by decide) (by decide) 0 (by decide) false).2,
   (convert_roundtrip_canonical.2 12 (by decide) (by decide) 0 (by decide) true).2⟩

/-- A resolver state holding an override whose `expiresAt` is the (falsy)
number 0. -/
def overrideZeroState : BackgroundState where
  forced := ⟨some 3000, some 0⟩
  settings := getDefaultSettings
  currentTemp := some 5000
  expiryTimerDelay := none

/-- A resolver state holding a live override (expires at 50000). -/
def overrideLiveState : BackgroundState where
  forced := ⟨some 3000, some 50000⟩
  settings := getDefaultSettings
  currentTemp := some 5000
  expiryTimerDelay := none

/-- A resolver state holding an expired override (expired at 800). -/
def overrideExpiredState : BackgroundState where
  forced := ⟨some 3000, some 800⟩
  settings := getDefaultSettings
  currentTemp := some 5000
  expiryTimerDelay := none

/-- C2 counterexample: with a stored override `{temperature = 3000,
expiresAt = 0}` at `now = 1000` the expiry `0 ≤ now` holds and the
override is (as claimed) not applied, but the resolver does not clear the
override record in that invocation: `expiresAt = 0` is falsy in the JS
guard `forced.expiresAt && forced.expiresAt <= now`. -/
theorem updateTemperature_zero_expiry_not_cleared :
    overrideZeroState.forced = ⟨some 3000, some 0⟩ ∧
    (0 : Nat) ≤ 1000 ∧
    (updateTemperature overrideZeroState 1000 420).forced = ⟨some 3000, some 0⟩ := by
  decide

/-- C2 (amended): a stored override with non-null temperature and
`expiresAt > now` is written as the current temperature without reading
the schedule (the result does not depend on the settings); an override
whose `expiresAt` is less than or equal to `now` is never applied, and in
that same invocation the resolver clears the override record provided
`expiresAt` is non-zero (a zero `expiresAt` is falsy and skips the
clearing, leaving the record in place) and, when `enabled` is true,
writes the schedule-derived temperature of the current period instead. -/
theorem updateTemperature_override_handling
    (st : BackgroundState) (now minutesOfDay : Nat) (t : Int) (e : Nat) :
    (st.forced.temperature = some t → st.forced.expiresAt = some e → now < e →
      (updateTemperature st now minutesOfDay).currentTemp = some t ∧
      (updateTemperature st now minutesOfDay).forced = st.forced ∧
      ∀ s' : CircadianSettings,
        (updateTemperature { st with settings := s' } now minutesOfDay).currentTemp =
          some t) ∧
    (st.forced.expiresAt = some e → e ≤ now → e ≠ 0 →
      (updateTemperature st now minutesOfDay).forced = ⟨none, none⟩ ∧
      (st.settings.enabled = true →
        (updateTemperature st now minutesOfDay).currentTemp =
          some (scheduleTemp st.settings minutesOfDay)) ∧
      (st.settings.enabled = false →
        (updateTemperature st now minutesOfDay).currentTemp = st.currentTemp)) ∧
    (st.forced.expiresAt = some 0 →
      (updateTemperature st now minutesOfDay).forced = st.forced ∧
      (st.settings.enabled = true →
        (updateTemperature st now minutesOfDay).currentTemp =
          some (scheduleTemp st.settings minutesOfDay))) := by
  refine ⟨?_, ?_, ?_⟩
  · intro hT hE hlt
    have hact : forcedActive st.forced now = true := by
      simp only [forcedActive, hT, hE, jsTruthyNat, Option.isSome_some, Option.getD_some,
        Bool.and_eq_true, decide_eq_true_eq]
      exact ⟨⟨trivial, by omega⟩, by omega⟩
    refine ⟨?_, ?_, fun s' => ?_⟩
    · simp [updateTemperature, hact, hT]
    · simp [updateTemperature, hact]
    · have hact' : forcedActive ({ st with settings := s' } : BackgroundState).forced now =
          true := hact
      simp [updateTemperature, hact', hT]
  · intro hE hle hne
    have hact : forcedActive st.forced now = false := by
      unfold forcedActive
      rw [hE]
      have h1 : ¬ ((some e).getD 0 > now) := by
        simp
        omega
      simp [h1]
      intro _ _
      omega
    have hclear : (jsTruthyNat st.forced.expiresAt &&
        decide (st.forced.expiresAt.getD 0 ≤ now)) = true := by
      simp [jsTruthyNat, hE, hne, hle]
    refine ⟨?_, ?_, ?_⟩
    · simp [updateTemperature, hact, hclear]
      split <;> rfl
    · intro hen
      simp [updateTemperature, hact, hclear, hen]
    · intro hen
      simp [updateTemperature, hact, hclear, hen]
  · intro hE0
    have hact : forcedActive st.forced now = false := by
      simp [forcedActive, hE0, jsTruthyNat]
    have hclear : (jsTruthyNat st.forced.expiresAt &&
        decide (st.forced.expiresAt.getD 0 ≤ now)) = false := by
      simp [jsTruthyNat, hE0]
    constructor
    · simp [updateTemperature, hact, hclear]
      split <;> rfl
    · intro hen
      simp [updateTemperature, hact, hclear, hen]

/-- C2 witness: a live override (expires at 50000, now 1000) is applied;
an expired one (expired at 800) is cleared. -/
theorem updateTemperature_override_handling_witness :
    (updateTemperature overrideLiveState 1000 420).currentTemp = some 3000 ∧
    (updateTemperature overrideExpiredState 1000 420).forced = ⟨none, none⟩ :=
  ⟨((updateTemperature_override_handling overrideLiveState 1000 420 3000 50000).1
      (by decide) (by decide) (by decide)).1,
   ((updateTemperature_override_handling overrideExpiredState 1000 420 3000 800).2.1
      (by decide) (by decide) (by decide)).1⟩

/-- A disabled resolver state that nevertheless holds a live override. -/
def disabledOverrideState : BackgroundState where
  forced := ⟨some 3000, some 20000⟩
  settings := { getDefaultSettings with enabled := false }
  currentTemp := some 5000
  expiryTimerDelay := none

/-- A disabled resolver state with no override stored. -/
def disabledIdleState : BackgroundState where
  forced := ⟨none, none⟩
  settings := { getDefaultSettings with enabled := false }
  currentTemp := some 4000
  expiryTimerDelay := none

/-- A page state with a rendered overlay, a stored temperature, no
override, and a non-excluded hostname. -/
def renderedPageState : FilterState where
  runtimeAvailable := true
  hostname := "example.com".toList
  excludedHostnames := []
  forced := ⟨none, none⟩
  currentTemp := some 2600
  instantApplyOnce := false
  lastTemperature := some 2600
  overlay := some ⟨.auto30s, some 2600⟩
  lastAutoAppliedAt := 0

/-- C3 counterexample: with `enabled = false` but a live override stored,
`updateTemperature` still writes the override temperature to
`current_temp` (3000 over the previous 5000); and `updateFilter` — which
never reads `enabled` — keeps (re-applies) a rendered overlay on a
non-excluded page instead of removing it. -/
theorem enabled_false_counterexample :
    disabledOverrideState.settings.enabled = false ∧
    (updateTemperature disabledOverrideState 1000 420).currentTemp = some 3000 ∧
    disabledOverrideState.currentTemp = some 5000 ∧
    (updateFilter renderedPageState .auto 100000).overlay = some ⟨.auto30s, some 2600⟩ := by
  decide

/-- C3 (amended): when `enabled` is false the resolver leaves
`current_temp` unchanged provided no live (non-expired, non-null) override
is stored — a live override is applied even while disabled; and the
overlay controller's `updateFilter` does not consult `enabled` at all: it
removes the overlay only for excluded hostnames, so on a non-excluded page
a rendered overlay persists regardless of the `enabled` value. -/
theorem enabled_false_behavior
    (stB : BackgroundState) (now minutesOfDay : Nat)
    (hEn : stB.settings.enabled = false)
    (hNoOv : forcedActive stB.forced now = false) :
    (updateTemperature stB now minutesOfDay).currentTemp = stB.currentTemp ∧
    ∀ (stO : FilterState) (mode : Mode) (now' : Nat),
      stO.runtimeAvailable = true →
      isHostnameExcluded stO.hostname stO.excludedHostnames = false →
      stO.overlay.isSome = true →
      (updateFilter stO mode now').overlay.isSome = true := by
  constructor
  · unfold updateTemperature
    rw [hNoOv]
    simp only [Bool.false_eq_true, if_false]
    split <;> simp [hEn]
  · intro stO mode now' hrt hex hov
    unfold updateFilter
    rw [hrt, hex]
    simp only [Bool.true_eq_false, if_false, Bool.false_eq_true]
    split
    · simp [applyTemperature]
    · split
      · exact hov
      · split
        · simp [applyTemperature]
        · split
          · simp [applyTemperature]
          · split
            · simp [applyTemperature]
            · split
              · simp [applyTemperature]
              · exact hov

/-- C3 witness: a disabled resolver with no override leaves the stored
4000 in place, and a rendered overlay on a non-excluded page survives a
recomputation. -/
theorem enabled_false_behavior_witness :
    (updateTemperature disabledIdleState 1000 420).currentTemp = some 4000 ∧
    (updateFilter renderedPageState .auto 100000).overlay.isSome = true :=
  ⟨(enabled_false_behavior disabledIdleState 1000 420 (by decide) (by decide)).1,
   (enabled_false_behavior disabledIdleState 1000 420 (by decide) (by decide)).2
     renderedPageState .auto 100000 (by decide) (by decide) (by decide)⟩

/-- A fresh page state: no prior applied value, no overlay yet, a stored
temperature, no override, flag clear. -/
def firstApplyState : FilterState where
  runtimeAvailable := true
  hostname := "example.com".toList
  excludedHostnames := []
  forced := ⟨none, none⟩
  currentTemp := some 5000
  instantApplyOnce := false
  lastTemperature := none
  overlay := none
  lastAutoAppliedAt := 0

/-- C4: the throttle-skip and slow-auto parts of the claim hold, but the
"very first application is instant" part does not: with no prior
last-applied value the code sets `delta = Infinity`, so `delta >= 25`
routes the update into the `"auto"` branch (30 s transition) and the
`else if (lastTemperature == null)` instant branch is unreachable.  At the
failing input the first-ever automatic application gets the slow auto
transition (also when inside the 3 s window), never `transition: none`. -/
theorem updateFilter_first_apply_uses_auto :
    firstApplyState.lastTemperature = none ∧
    firstApplyState.overlay = none ∧
    (updateFilter firstApplyState .auto 100000).overlay = some ⟨.auto30s, some 5000⟩ ∧
    (updateFilter { firstApplyState with lastAutoAppliedAt := 99000 } .auto 100000).overlay =
      some ⟨.auto30s, some 5000⟩ ∧
    Transition.auto30s ≠ Transition.noTransition := by
  decide

/-- A flagged page state: instant-apply-once set, stored temperature,
no override, not excluded. -/
def flaggedPageState : FilterState where
  runtimeAvailable := true
  hostname := "example.com".toList
  excludedHostnames := []
  forced := ⟨none, none⟩
  currentTemp := some 4000
  instantApplyOnce := true
  lastTemperature := none
  overlay := none
  lastAutoAppliedAt := 0

/-- A flagged page state that also stores a live override. -/
def flaggedOverridePageState : FilterState :=
  { flaggedPageState with forced := ⟨some 3000, some 20000⟩ }

/-- C6 counterexample: with the flag set but a live preview override also
stored, the triggered recomputation applies the override with the 0.2 s
preview transition and returns before `consumeInstantApplyOnce` runs: the
flag still reads true afterwards and the applied transition is not zero. -/
theorem instant_flag_not_consumed_counterexample :
    flaggedOverridePageState.instantApplyOnce = true ∧
    (updateFilter flaggedOverridePageState .auto 1000).instantApplyOnce = true ∧
    (updateFilter flaggedOverridePageState .auto 1000).overlay =
      some ⟨.preview02s, some 3000⟩ := by
  decide

/-- C6 (amended): provided the page is not excluded, no live override is
stored and a current temperature exists, one recomputation triggered with
the flag set consumes the flag — it reads false on the next recomputation
— and applies the current temperature with `transition: none` (zero
duration).  In the excluded, live-override and no-temperature cases the
flag is not consumed. -/
theorem updateFilter_instant_once
    (st : FilterState) (mode : Mode) (now : Nat) (t : Int)
    (hrt : st.runtimeAvailable = true)
    (hex : isHostnameExcluded st.hostname st.excludedHostnames = false)
    (hov : forcedActive st.forced now = false)
    (hct : st.currentTemp = some t)
    (hfl : st.instantApplyOnce = true) :
    (updateFilter st mode now).instantApplyOnce = false ∧
    (updateFilter st mode now).overlay = some ⟨.noTransition, some t⟩ ∧
    (updateFilter st mode now).lastTemperature = some t := by
  unfold updateFilter
  rw [hrt, hex, hov, hct]
  simp [hfl, applyTemperature, ensureOverlay]

/-- C6 witness: the flagged state (no override) consumes the flag and
applies 4000 with no transition. -/
theorem updateFilter_instant_once_witness :
    (updateFilter flaggedPageState .auto 1000).instantApplyOnce = false ∧
    (updateFilter flaggedPageState .auto 1000).overlay = some ⟨.noTransition, some 4000⟩ :=
  ⟨(updateFilter_instant_once flaggedPageState .auto 1000 4000 (by decide) (by decide)
      (by decide) (by decide) (by decide)).1,
   (updateFilter_instant_once flaggedPageState .auto 1000 4000 (by decide) (by decide)
      (by decide) (by decide) (by decide)).2.1⟩

/-- C7: for a page whose hostname is in the excluded set, every invocation
of `updateFilter` (with the runtime reachable) removes any rendered
overlay, resets the local last-applied temperature to none, and changes
nothing else — in particular the instant-apply flag is not consumed and
the result does not depend on the override record, the current temperature
or the trigger mode, which remain unread. -/
theorem updateFilter_excluded
    (st : FilterState) (mode : Mode) (now : Nat)
    (hrt : st.runtimeAvailable = true)
    (hex : isHostnameExcluded st.hostname st.excludedHostnames = true) :
    updateFilter st mode now = { st with lastTemperature := none, overlay := none } := by
  unfold updateFilter
  rw [hrt, hex]
  simp

/-- An excluded page state with a rendered overlay, a live override, a
stored temperature and the flag set. -/
def excludedPageState : FilterState where
  runtimeAvailable := true
  hostname := "excluded.example".toList
  excludedHostnames := ["excluded.example".toList]
  forced := ⟨some 3000, some 99999⟩
  currentTemp := some 4000
  instantApplyOnce := true
  lastTemperature := some 2600
  overlay := some ⟨.auto30s, some 2600⟩
  lastAutoAppliedAt := 0

/-- C7 witness: the excluded page drops its overlay and last-applied value
even with a live override, a stored temperature and the flag set. -/
theorem updateFilter_excluded_witness :
    updateFilter excludedPageState .auto 1000 =
      { excludedPageState with lastTemperature := none, overlay := none } :=
  updateFilter_excluded excludedPageState .auto 1000 (by decide) (by decide)

/-- Local React state of the popup (`src/unnamed/part_002`, the period
selector variant) plus the stored values its period-button handler
touches.  `currentMinutes` is the minutes-of-day of the `currentTime`
state variable (`none` while still loading). -/
structure PopupState where
  isPreviewMode : Bool
  activePeriod : Period
  daytimeTemp : Int
  sunsetTemp : Int
  bedtimeTemp : Int
  daytimeStart : List Char
  sunsetStart : List Char
  bedtimeStart : List Char
  currentMinutes : Option Nat
  forced : ForcedRecord
  currentTemp : Option Int
deriving DecidableEq

/-- The popup's `getTemperatureForPeriod` callback: the configured
temperature of a period. -/
def popupTemperatureForPeriod (st : PopupState) : Period → Int
  | .Daytime => st.daytimeTemp
  | .Sunset => st.sunsetTemp
  | .Bedtime => st.bedtimeTemp

/-- The `isCurrentPeriod` value computed for a period button:
`currentTime ? getCurrentPeriod(currentTime, …) === period : false`. -/
def popupIsCurrentPeriod (st : PopupState) (period : Period) : Bool :=
  match st.currentMinutes with
  | none => false
  | some cm =>
    decide (getCurrentPeriod cm st.daytimeStart st.sunsetStart st.bedtimeStart = period)

/-- The period button `onClick` handler (`src/unnamed/part_002`, lines
564–603).  `now` is `Date.now()` at click time and `nowMinutes` its local
minutes-of-day (used by the current-period branch's recomputation; the
best-effort tab broadcast is delivery only and carries no state). -/
def periodButtonClick (st : PopupState) (period : Period) (now nowMinutes : Nat) :
    PopupState :=
  if popupIsCurrentPeriod st period then
    let currentPeriod :=
      getCurrentPeriod nowMinutes st.daytimeStart st.sunsetStart st.bedtimeStart
    { st with
        isPreviewMode := false
        forced := ⟨none, none⟩
        currentTemp := some (popupTemperatureForPeriod st currentPeriod) }
  else
    { st with
        isPreviewMode := true
        activePeriod := period
        forced := ⟨some (popupTemperatureForPeriod st period), some (now + 10000)⟩ }

/-- C8: selecting a period different from the currently-active one writes
an override record whose temperature is that period's configured
temperature and whose `expiresAt` is `now + 10000` ms, and puts the UI
into preview mode locally (selecting the period). -/
theorem periodButtonClick_preview
    (st : PopupState) (period : Period) (now nowMinutes cm : Nat)
    (hcm : st.currentMinutes = some cm)
    (hne : getCurrentPeriod cm st.daytimeStart st.sunsetStart st.bedtimeStart ≠ period) :
    (periodButtonClick st period now nowMinutes).forced =
      ⟨some (popupTemperatureForPeriod st period), some (now + 10000)⟩ ∧
    (periodButtonClick st period now nowMinutes).isPreviewMode = true ∧
    (periodButtonClick st period now nowMinutes).activePeriod = period := by
  have hcur : popupIsCurrentPeriod st period = false := by
    unfold popupIsCurrentPeriod
    rw [hcm]
    simp [hne]
  unfold periodButtonClick
  rw [hcur]
  simp

/-- A popup state at 7:00 AM (Daytime active) with the default
temperatures. -/
def morningPopupState : PopupState where
  isPreviewMode := false
  activePeriod := .Daytime
  daytimeTemp := 6000
  sunsetTemp := 4500
  bedtimeTemp := 2600
  daytimeStart := "6:00 AM".toList
  sunsetStart := "6:00 PM".toList
  bedtimeStart := "10:00 PM".toList
  currentMinutes := some 420
  forced := ⟨none, none⟩
  currentTemp := some 6000

/-- C8 witness: clicking Bedtime at 7:00 AM writes the override
`{temperature = 2600, expiresAt = now + 10000}` and enters preview mode. -/
theorem periodButtonClick_preview_witness :
    (periodButtonClick morningPopupState .Bedtime 50000 420).forced =
      ⟨some 2600, some 60000⟩ ∧
    (periodButtonClick morningPopupState .Bedtime 50000 420).isPreviewMode = true :=
  ⟨(periodButtonClick_preview morningPopupState .Bedtime 50000 420 420
      (by decide) (by decide)).1,
   (periodButtonClick_preview morningPopupState .Bedtime 50000 420 420
      (by decide) (by decide)).2.1⟩

/-- The raw `chrome.storage.local` contents under the flat key schema of
`src/utils/storage.ts` (`none` = key absent). -/
structure RawStore where
  enabled : Option Bool
  daytimeStart : Option (List Char)
  sunsetStart : Option (List Char)
  bedtimeStart : Option (List Char)
  daytimeTemp : Option Int
  sunsetTemp : Option Int
  bedtimeTemp : Option Int
  currentTemp : Option Int
  forcedTemp : Option Int
  forcedExpires : Option Nat
  instantApplyOnce : Option Bool
deriving DecidableEq

/-- The environment a storage operation runs in: whether
`isRuntimeAvailable()` holds, whether the underlying
`chrome.storage.local` access throws, and the stored contents. -/
structure StorageEnv where
  runtimeAvailable : Bool
  storageFails : Bool
  store : RawStore
deriving DecidableEq

/-- The fallible primitive `chrome.storage.local.get`: throws (`error`)
when storage access fails. -/
def rawGet (env : StorageEnv) : Except Unit RawStore :=
  if env.storageFails then .error () else .ok env.store

/-- The fallible primitives `chrome.storage.local.set` / `.remove`. -/
def rawSet (env : StorageEnv) (f : RawStore → RawStore) : Except Unit StorageEnv :=
  if env.storageFails then .error () else .ok { env with store := f env.store }

/-- `loadSettings`: runtime-unavailable and thrown-access both degrade to
the complete default settings record; otherwise every field falls back to
its documented default (`?? …`). -/
def loadSettings (env : StorageEnv) : CircadianSettings :=
  if env.runtimeAvailable = false then getDefaultSettings
  else
    match rawGet env with
    | .error _ => getDefaultSettings
    | .ok r =>
      { enabled := r.enabled.getD true
        daytimeStart := r.daytimeStart.getD ("6:00 AM".toList)
        sunsetStart := r.sunsetStart.getD ("6:00 PM".toList)
        bedtimeStart := r.bedtimeStart.getD ("10:00 PM".toList)
        daytimeTemp := r.daytimeTemp.getD 6000
        sunsetTemp := r.sunsetTemp.getD 4500
        bedtimeTemp := r.bedtimeTemp.getD 2600 }

/-- `loadCurrentTemperature`: degrades to `null`. -/
def loadCurrentTemperature (env : StorageEnv) : Option Int :=
  if env.runtimeAvailable = false then none
  else
    match rawGet env with
    | .error _ => none
    | .ok r => r.currentTemp

/-- `loadForcedTemperature`: degrades to
`{temperature: null, expiresAt: null}`. -/
def loadForcedTemperature (env : StorageEnv) : ForcedRecord :=
  if env.runtimeAvailable = false then ⟨none, none⟩
  else
    match rawGet env with
    | .error _ => ⟨none, none⟩
    | .ok r => ⟨r.forcedTemp, r.forcedExpires⟩

/-- `saveSettings`: a silent no-op on failure. -/
def saveSettings (env : StorageEnv) (s : CircadianSettings) : StorageEnv :=
  if env.runtimeAvailable = false then env
  else
    match rawSet env (fun r =>
      { r with
          enabled := some s.enabled
          daytimeStart := some s.daytimeStart
          sunsetStart := some s.sunsetStart
          bedtimeStart := some s.bedtimeStart
          daytimeTemp := some s.daytimeTemp
          sunsetTemp := some s.sunsetTemp
          bedtimeTemp := some s.bedtimeTemp }) with
    | .error _ => env
    | .ok env' => env'

/-- `saveCurrentTemperature`: a silent no-op on failure. -/
def saveCurrentTemperature (env : StorageEnv) (t : Int) : StorageEnv :=
  if env.runtimeAvailable = false then env
  else
    match rawSet env (fun r => { r with currentTemp := some t }) with
    | .error _ => env
    | .ok env' => env'

/-- `saveForcedTemperature`: a silent no-op on failure. -/
def saveForcedTemperature (env : StorageEnv) (t : Int) (e : Nat) : StorageEnv :=
  if env.runtimeAvailable = false then env
  else
    match rawSet env (fun r => { r with forcedTemp := some t, forcedExpires := some e }) with
    | .error _ => env
    | .ok env' => env'

/-- `clearForcedTemperature`: removes both override keys; a silent no-op
on failure. -/
def clearForcedTemperature (env : StorageEnv) : StorageEnv :=
  if env.runtimeAvailable = false then env
  else
    match rawSet env (fun r => { r with forcedTemp := none, forcedExpires := none }) with
    | .error _ => env
    | .ok env' => env'

/-- `markInstantApplyOnce`: a silent no-op on failure. -/
def markInstantApplyOnce (env : StorageEnv) : StorageEnv :=
  if env.runtimeAvailable = false then env
  else
    match rawSet env (fun r => { r with instantApplyOnce := some true }) with
    | .error _ => env
    | .ok env' => env'

/-- `consumeInstantApplyOnce`: read the flag, remove it when set, return
it; every failure path returns false with the environment unchanged. -/
def consumeInstantApplyOnce (env : StorageEnv) : Bool × StorageEnv :=
  if env.runtimeAvailable = false then (false, env)
  else
    match rawGet env with
    | .error _ => (false, env)
    | .ok r =>
      if r.instantApplyOnce.getD false then
        match rawSet env (fun r' => { r' with instantApplyOnce := none }) with
        | .error _ => (false, env)
        | .ok env' => (true, env')
      else (false, env)

/-- `resetSettings`: write the defaults and null out `current_temp`, then
clear the override keys; a silent no-op on failure. -/
def resetSettings (env : StorageEnv) : StorageEnv :=
  if env.runtimeAvailable = false then env
  else
    match rawSet env (fun r =>
      { r with
          enabled := some getDefaultSettings.enabled
          daytimeStart := some getDefaultSettings.daytimeStart
          sunsetStart := some getDefaultSettings.sunsetStart
          bedtimeStart := some getDefaultSettings.bedtimeStart
          daytimeTemp := some getDefaultSettings.daytimeTemp
          sunsetTemp := some getDefaultSettings.sunsetTemp
          bedtimeTemp := some getDefaultSettings.bedtimeTemp
          currentTemp := none }) with
    | .error _ => env
    | .ok env' => clearForcedTemperature env'

/-- C9: every storage operation is total (returns a plain value — the
`try`/`catch` swallows the primitive's `Except` failure) and degrades to
an inert default whenever the runtime is unavailable or the underlying
storage access throws: `loadSettings` returns the complete default
settings record, `loadCurrentTemperature` returns null,
`loadForcedTemperature` returns `{temperature: null, expiresAt: null}`,
`consumeInstantApplyOnce` returns false, and every save/clear operation
leaves the environment unchanged. -/
theorem storage_degrades_to_defaults
    (env : StorageEnv) (s : CircadianSettings) (t : Int) (e : Nat)
    (h : env.runtimeAvailable = false ∨ env.storageFails = true) :
    loadSettings env = getDefaultSettings ∧
    loadCurrentTemperature env = none ∧
    loadForcedTemperature env = ⟨none, none⟩ ∧
    consumeInstantApplyOnce env = (false, env) ∧
    saveSettings env s = env ∧
    saveCurrentTemperature env t = env ∧
    saveForcedTemperature env t e = env ∧
    clearForcedTemperature env = env ∧
    markInstantApplyOnce env = env ∧
    resetSettings env = env := by
  rcases h with h | h <;>
    refine ⟨?_, ?_, ?_, ?_, ?_, ?_, ?_, ?_, ?_, ?_⟩ <;>
      simp [loadSettings, loadCurrentTemperature, loadForcedTemperature,
        consumeInstantApplyOnce, saveSettings, saveCurrentTemperature,
        saveForcedTemperature, clearForcedTemperature, markInstantApplyOnce,
        resetSettings, rawGet, rawSet, h]

/-- A storage environment whose runtime is unavailable but whose store
holds data that would otherwise be returned. -/
def deadRuntimeEnv : StorageEnv where
  runtimeAvailable := false
  storageFails := false
  store :=
    { enabled := some false
      daytimeStart := some ("7:00 AM".toList)
      sunsetStart := some ("7:00 PM".toList)
      bedtimeStart := some ("11:00 PM".toList)
      daytimeTemp := some 5000
      sunsetTemp := some 4000
      bedtimeTemp := some 3000
      currentTemp := some 4200
      forcedTemp := some 3100
      forcedExpires := some 77777
      instantApplyOnce := some true }

/-- C9 witness: with the runtime unavailable, all loads return the inert
defaults (ignoring the stored data) and a save is a no-op. -/
theorem storage_degrades_to_defaults_witness :
    loadSettings deadRuntimeEnv = getDefaultSettings ∧
    loadCurrentTemperature deadRuntimeEnv = none ∧
    consumeInstantApplyOnce deadRuntimeEnv = (false, deadRuntimeEnv) ∧
    saveCurrentTemperature deadRuntimeEnv 1234 = deadRuntimeEnv :=
  ⟨(storage_degrades_to_defaults deadRuntimeEnv getDefaultSettings 1234 0
      (Or.inl (by decide))).1,
   (storage_degrades_to_defaults deadRuntimeEnv getDefaultSettings 1234 0
      (Or.inl (by decide))).2.1,
   (storage_degrades_to_defaults deadRuntimeEnv getDefaultSettings 1234 0
      (Or.inl (by decide))).2.2.2.1,
   (storage_degrades_to_defaults deadRuntimeEnv getDefaultSettings 1234 0
      (Or.inl (by decide))).2.2.2.2.2.1⟩

end Circadian
